import Mathlib

/-!
Verification of the job-orchestration and statistics-aggregation layer of
`src/tokenize-pop909.py` (the `main` function of the tokenize-pop909 script).

The script is embedded shallowly as pure Lean functions:
* the filesystem is modelled as the list of basenames present in the data
  directory (`glob` with the pattern `*.mid.compound.txt` returns the
  matching non-hidden entries, in arbitrary order, which `sorted` then
  orders lexicographically — Python compares strings by code point, as
  does Lean's `String` order);
* the two external tokenization routines (`tokenize` and `tokenize_ia`
  from `anticipation.tokenize`) are parameters: functions from a job
  descriptor to a statistics tuple, since the spec treats them as pure
  external collaborators;
* the configuration constant `M` (sequence-unit length from
  `anticipation.config`) is a parameter;
* Python's `round(x, 2)` on the exact percentage is modelled over `ℚ` as
  rounding `100 * x` to the nearest integer and dividing back;
* the printed report is reified as a `Report` record holding the numbers
  and labels interpolated into the final print statements; the two early
  `return` paths (no input files / empty result list) are reified as
  `Outcome` constructors.
-/

namespace TokenizePop909

/-- The filename suffix of preprocessed shards, from the glob pattern
`*.mid.compound.txt` at line 28 of the script. -/
def shardSuffix : String := ".mid.compound.txt"

/-- The fixed consolidated output filename, from line 37. -/
def outputFileName : String := "tokenized-events-all.txt"

/-- Path separator used by `os.path.join` on POSIX. -/
def pathSep : String := "/"

/-- `os.path.join dir name` for a directory path without trailing separator. -/
def joinPath (dir name : String) : String := dir ++ pathSep ++ name

/-- Whether a basename is matched by the glob pattern `*.mid.compound.txt`:
`fnmatch` requires the `.mid.compound.txt` suffix, and `glob` skips hidden
entries (names starting with a dot) since the pattern does not start with
a dot. Stated over the underlying character lists of the names. -/
def matchesShardPattern (name : String) : Bool :=
  (List.isSuffixOf shardSuffix.data name.data) &&
    !(match name.data with
      | [] => false
      | c :: _ => c == '.')

/-- Code-point lexicographic comparison of character lists, the order
Python's `sorted` uses on strings. -/
def charListLe : List Char → List Char → Bool
  | [], _ => true
  | _ :: _, [] => false
  | a :: as, b :: bs =>
    if a < b then true else if b < a then false else charListLe as bs

/-- Code-point lexicographic comparison of strings (Python string order). -/
def stringLe (a b : String) : Bool := charListLe a.data b.data

/-- Line 28: `input_files = sorted(glob(os.path.join(args.datadir, '*.mid.compound.txt')))`.
`glob` yields the full paths of matching directory entries in arbitrary
order; `sorted` orders them by code-point lexicographic comparison. Any
comparison sort agrees with Python's `sorted` here: the output of a sort
under a linear order is the unique ordered permutation of its input. -/
def discover (datadir : String) (dirListing : List String) : List String :=
  List.insertionSort (fun a b => stringLe a b = true)
    ((dirListing.filter matchesShardPattern).map (joinPath datadir))

/-- Command-line arguments (lines 91-100): positional `datadir`,
`-k` or `--augment` (an `int`, default 1), `-i` or `--interarrival`
(a flag). -/
structure Args where
  datadir : String
  augment : Int
  interarrival : Bool
deriving DecidableEq

/-- A unit of work passed to `pool.starmap` (lines 48-50): the tuple
`(input_files, output_file, current_augment_factor, 0)`. -/
structure JobDescriptor where
  input_files : List String
  output_file : String
  augment : Int
  proc_idx : Nat
deriving DecidableEq

/-- The statistics tuple returned by a tokenization routine, unpacked at
line 65 as `seq_count, rest_count, too_short, too_long, too_manyinstr,
discarded_seqs, truncations`. All fields are non-negative counts. -/
structure StatsTuple where
  seq_count : Nat
  rest_count : Nat
  too_short : Nat
  too_long : Nat
  too_manyinstr : Nat
  discarded_seqs : Nat
  truncations : Nat
deriving DecidableEq

/-- Element-wise sum of a list of statistics tuples. -/
def sumStats (l : List StatsTuple) : StatsTuple :=
  l.foldr
    (fun a b =>
      ⟨a.seq_count + b.seq_count, a.rest_count + b.rest_count,
       a.too_short + b.too_short, a.too_long + b.too_long,
       a.too_manyinstr + b.too_manyinstr, a.discarded_seqs + b.discarded_seqs,
       a.truncations + b.truncations⟩)
    ⟨0, 0, 0, 0, 0, 0, 0⟩

/-- Python's `round(x, 2)` on the exact percentage value, over `ℚ`. -/
def round2 (q : ℚ) : ℚ := (round (100 * q) : ℤ) / 100

/-- Label printed for the truncation kind (lines 72 and 75). -/
def interarrivalLabel : String := "interarrival"

/-- Label printed for the truncation kind when not in interarrival mode. -/
def durationLabel : String := "duration"

/-- The data interpolated into the final report print statements
(lines 78-87). `discarded_total` is the number on the
`Discarded ... event sequences` line 82, namely `too_short + too_long`. -/
structure Report where
  output_file : String
  seq_count : Nat
  rest_count : Nat
  rest_ratio : ℚ
  discarded_total : Nat
  too_short : Nat
  too_long : Nat
  too_manyinstr : Nat
  discarded_seqs : Nat
  truncations : Nat
  trunc_type : String
  trunc_ratio : ℚ
deriving DecidableEq

/-- Lines 65-87: unpack the statistics tuple, compute the guarded ratios
(`rest_ratio = 0` and `trunc_ratio = 0` unless `seq_count > 0 and M > 0`,
in which case `round(100 * count / (seq_count * M), 2)`), pick the
truncation label from the interarrival flag, and assemble the printed
report. -/
def buildReport (M : Nat) (interarrival : Bool) (outputFile : String)
    (s : StatsTuple) : Report :=
  let restRatio : ℚ :=
    if s.seq_count > 0 ∧ M > 0 then
      round2 (100 * (s.rest_count : ℚ) / ((s.seq_count : ℚ) * (M : ℚ)))
    else 0
  let truncRatio : ℚ :=
    if s.seq_count > 0 ∧ M > 0 then
      round2 (100 * (s.truncations : ℚ) / ((s.seq_count : ℚ) * (M : ℚ)))
    else 0
  let truncType : String := if interarrival then interarrivalLabel else durationLabel
  { output_file := outputFile
    seq_count := s.seq_count
    rest_count := s.rest_count
    rest_ratio := restRatio
    discarded_total := s.too_short + s.too_long
    too_short := s.too_short
    too_long := s.too_long
    too_manyinstr := s.too_manyinstr
    discarded_seqs := s.discarded_seqs
    truncations := s.truncations
    trunc_type := truncType
    trunc_ratio := truncRatio }

/-- How an invocation of `main` ends: the early return at lines 30-32
(`No '*.mid.compound.txt' files found`), the early return at lines 59-61
(`Tokenization did not return any results`), or the full report of
lines 78-87. All three paths return normally; nothing is raised to the
shell. -/
inductive Outcome where
  | noInputFiles (datadir : String)
  | emptyResults
  | reported (r : Report)
deriving DecidableEq

/-- Lines 59-87: the dispatch-and-aggregation tail of `main`, as a function
of the result list returned by the pool. If `results` is empty, print a
diagnostic and return (no report); otherwise unpack `results[0]` and build
the report. -/
def dispatchAggregate (M : Nat) (interarrival : Bool) (outputFile : String)
    (results : List StatsTuple) : Outcome :=
  match results with
  | [] => Outcome.emptyResults
  | s :: _ => Outcome.reported (buildReport M interarrival outputFile s)

/-- The observable trace of one invocation of `main`: the job descriptors
submitted to the pool (each causes exactly one invocation of the external
tokenization routine, the only writer of output files), the statistics
tuples the pool returned, and the outcome. -/
structure RunTrace where
  jobs : List JobDescriptor
  results : List StatsTuple
  outcome : Outcome
deriving DecidableEq

/-- The `main` function (lines 14-89), with the external collaborators as
parameters: `M` from `anticipation.config`, and the routines `tokenize`
and `tokenize_ia` from `anticipation.tokenize` (each a pure function of
the starmap argument tuple, per the spec). Line 42 selects the routine
from the flag; lines 48-50 build the single starmap argument tuple;
line 57's `pool.starmap` maps the routine over that one-element list. -/
def run (M : Nat) (args : Args) (dirListing : List String)
    (tokenize tokenize_ia : JobDescriptor → StatsTuple) : RunTrace :=
  let input_files := discover args.datadir dirListing
  if input_files.isEmpty then
    { jobs := [], results := [], outcome := Outcome.noInputFiles args.datadir }
  else
    let output_file := joinPath args.datadir outputFileName
    let func := if args.interarrival then tokenize_ia else tokenize
    let starmap_args : List JobDescriptor :=
      [⟨input_files, output_file, args.augment, 0⟩]
    let results := starmap_args.map func
    { jobs := starmap_args
      results := results
      outcome := dispatchAggregate M args.interarrival output_file results }

/-! Sample inputs used by the witness theorems. -/

/-- A sample data directory path. -/
def dirSample : String := "data"

/-- A sample directory listing with three matching shard files, given out
of order (as `glob` may). -/
def sampleListing : List String :=
  ["b.mid.compound.txt", "a.mid.compound.txt", "c.mid.compound.txt"]

/-- A sample directory listing with no matching shard file. -/
def emptyListing : List String := ["notes.txt"]

/-- A sample statistics tuple. -/
def constStats : StatsTuple := ⟨7, 3, 1, 2, 3, 4, 5⟩

/-- A constant tokenization routine returning `constStats`. -/
def constTok : JobDescriptor → StatsTuple := fun _ => constStats

/-- The statistics tuple of the spec scenario: 100 sequences, 50 rest
tokens, 10 truncations. -/
def statsScenario : StatsTuple := ⟨100, 50, 3, 4, 5, 6, 10⟩

/-- A statistics tuple with zero sequences. -/
def statsZero : StatsTuple := ⟨0, 0, 0, 0, 0, 0, 0⟩

/-- A sample output path. -/
def outSample : String := "out.txt"

/-! Helper lemmas. -/

/-- `charListLe` decides the negation of the lexicographic strict order. -/
theorem charListLe_iff (as bs : List Char) :
    charListLe as bs = true ↔ ¬ List.Lex (fun x y : Char => x < y) bs as := by
  induction as generalizing bs with
  | nil =>
    cases bs with
    | nil => simp [charListLe]
    | cons b bs' => simp [charListLe]
  | cons a as' ih =>
    cases bs with
    | nil =>
      simp [charListLe]
      exact List.Lex.nil
    | cons b bs' =>
      by_cases hab : a < b
      · simp [charListLe, hab]
        intro h
        cases h with
        | cons h' => exact absurd hab (lt_irrefl _)
        | rel h' => exact absurd hab (asymm h')
      · by_cases hba : b < a
        · simp [charListLe, hab, hba]
          exact List.Lex.rel hba
        · have hEq : a = b := le_antisymm (not_lt.mp hba) (not_lt.mp hab)
          subst hEq
          simp [charListLe, hab]
          rw [ih bs']
          constructor
          · intro h hx
            cases hx with
            | cons h' => exact h h'
            | rel h' => exact absurd h' (lt_irrefl _)
          · intro h hx
            exact h (List.Lex.cons hx)

/-- `stringLe` decides the string order `≤` (code-point lexicographic). -/
theorem stringLe_iff (a b : String) : stringLe a b = true ↔ a ≤ b := by
  rw [String.le_iff_toList_le, ← not_lt, stringLe, charListLe_iff]
  exact Iff.rfl

/-- The sort relation used by `discover` is total. -/
theorem stringLe_total (a b : String) : stringLe a b = true ∨ stringLe b a = true :=
  (le_total a b).imp (stringLe_iff a b).mpr (stringLe_iff b a).mpr

/-- The sort relation used by `discover` is transitive. -/
theorem stringLe_trans (a b c : String) :
    stringLe a b = true → stringLe b c = true → stringLe a c = true := by
  intro h1 h2
  exact (stringLe_iff a c).mpr (le_trans ((stringLe_iff a b).mp h1) ((stringLe_iff b c).mp h2))

/-- `discover` returns a list sorted under the string order. -/
theorem discover_sorted (datadir : String) (listing : List String) :
    List.Sorted (fun a b : String => a ≤ b) (discover datadir listing) := by
  have hs :=
    @List.sorted_insertionSort String (fun a b => stringLe a b = true) _
      ⟨stringLe_total⟩ ⟨stringLe_trans⟩
      ((listing.filter matchesShardPattern).map (joinPath datadir))
  exact hs.imp (fun h => (stringLe_iff _ _).mp h)

/-- `discover` returns a permutation of the matching files. -/
theorem discover_perm (datadir : String) (listing : List String) :
    (discover datadir listing).Perm
      ((listing.filter matchesShardPattern).map (joinPath datadir)) :=
  List.perm_insertionSort (fun a b => stringLe a b = true) _

/-- Unfolding of `run` when discovery finds at least one file. -/
theorem run_eq_of_discover_ne_nil (M : Nat) (args : Args) (listing : List String)
    (tokenize tokenize_ia : JobDescriptor → StatsTuple)
    (h : discover args.datadir listing ≠ []) :
    run M args listing tokenize tokenize_ia =
      { jobs := [⟨discover args.datadir listing,
                  joinPath args.datadir outputFileName, args.augment, 0⟩]
        results := [(if args.interarrival then tokenize_ia else tokenize)
            ⟨discover args.datadir listing,
             joinPath args.datadir outputFileName, args.augment, 0⟩]
        outcome := Outcome.reported (buildReport M args.interarrival
            (joinPath args.datadir outputFileName)
            ((if args.interarrival then tokenize_ia else tokenize)
              ⟨discover args.datadir listing,
               joinPath args.datadir outputFileName, args.augment, 0⟩)) } := by
  rw [run, if_neg (by simpa [List.isEmpty_iff] using h)]
  rfl

/-- Unfolding of `run` when discovery finds no file: the early return of
lines 30-32. -/
theorem run_eq_of_discover_nil (M : Nat) (args : Args) (listing : List String)
    (tokenize tokenize_ia : JobDescriptor → StatsTuple)
    (h : discover args.datadir listing = []) :
    run M args listing tokenize tokenize_ia =
      { jobs := [], results := [], outcome := Outcome.noInputFiles args.datadir } := by
  rw [run]
  rw [if_pos (by simp [h])]

/-- `sumStats` of a one-element list is that element. -/
theorem sumStats_singleton (s : StatsTuple) : sumStats [s] = s := by
  simp [sumStats]

/-!
The claim theorems.
-/

/-- Claim C1: for the list of statistics tuples returned by the dispatched
jobs, the report is built from the element-wise sum of that list (the
single job's tuple is the sum of the one-element list), and the reduction
is invariant under any permutation of the result list, so reordering job
completion cannot change the final report. -/
theorem aggregate_sum_perm_invariant (M : Nat) (args : Args) (listing : List String)
    (tokenize tokenize_ia : JobDescriptor → StatsTuple)
    (h : discover args.datadir listing ≠ []) :
    (run M args listing tokenize tokenize_ia).outcome =
        Outcome.reported (buildReport M args.interarrival
          (joinPath args.datadir outputFileName)
          (sumStats (run M args listing tokenize tokenize_ia).results)) ∧
      ∀ l', ((run M args listing tokenize tokenize_ia).results).Perm l' →
        dispatchAggregate M args.interarrival (joinPath args.datadir outputFileName) l' =
          dispatchAggregate M args.interarrival (joinPath args.datadir outputFileName)
            (run M args listing tokenize tokenize_ia).results := by
  rw [run_eq_of_discover_ne_nil M args listing tokenize tokenize_ia h]
  constructor
  · rw [sumStats_singleton]
  · intro l' hp
    rw [List.perm_singleton.mp hp.symm]

/-- Witness for C1 at a concrete directory listing. -/
theorem aggregate_sum_perm_invariant_witness :
    (run 16 ⟨dirSample, 1, false⟩ sampleListing constTok constTok).outcome =
      Outcome.reported (buildReport 16 false (joinPath dirSample outputFileName)
        (sumStats (run 16 ⟨dirSample, 1, false⟩ sampleListing constTok constTok).results)) :=
  (aggregate_sum_perm_invariant 16 ⟨dirSample, 1, false⟩ sampleListing constTok constTok
    (by decide)).1

/-- Claim C2: with at least one matching file, the Job Builder produces
exactly one job descriptor, whose `input_files` is the full discovered
list, whose augmentation factor is the `augment` argument, whose slot
index is 0, and whose output destination is the fixed consolidated
filename inside the source directory. -/
theorem jobBuilder_single_descriptor (M : Nat) (args : Args) (listing : List String)
    (tokenize tokenize_ia : JobDescriptor → StatsTuple)
    (h : discover args.datadir listing ≠ []) :
    (run M args listing tokenize tokenize_ia).jobs =
      [⟨discover args.datadir listing, joinPath args.datadir outputFileName, args.augment, 0⟩] := by
  rw [run_eq_of_discover_ne_nil M args listing tokenize tokenize_ia h]

/-- Witness for C2: a directory with 3 matching files, augmentation
factor 2, arrival-time mode yields one job descriptor with augmentation
factor 2 and three input files. -/
theorem jobBuilder_single_descriptor_witness :
    (discover dirSample sampleListing).length = 3 ∧
      (run 16 ⟨dirSample, 2, false⟩ sampleListing constTok constTok).jobs =
        [⟨discover dirSample sampleListing, joinPath dirSample outputFileName, 2, 0⟩] :=
  ⟨by decide, jobBuilder_single_descriptor 16 ⟨dirSample, 2, false⟩ sampleListing constTok
    constTok (by decide)⟩

/-- Claim C3: when the total sequence count is 0 or the configured
sequence-unit length `M` is 0, both ratios are 0. No division is
evaluated on that path (the embedding's division is total, and the source
guards the Python division behind the same condition, so no division
error can be raised). -/
theorem guarded_ratio_zero (M : Nat) (interarrival : Bool) (outputFile : String)
    (s : StatsTuple) (h : s.seq_count = 0 ∨ M = 0) :
    (buildReport M interarrival outputFile s).rest_ratio = 0 ∧
      (buildReport M interarrival outputFile s).trunc_ratio = 0 := by
  have hc : ¬ (s.seq_count > 0 ∧ M > 0) := by
    rcases h with h | h <;> simp [h]
  constructor <;> simp [buildReport, hc]

/-- Witness for C3 at a zero-sequence statistics tuple. -/
theorem guarded_ratio_zero_witness :
    ((statsZero.seq_count = 0 ∨ (16 : Nat) = 0) ∧
      (buildReport 16 false outSample statsZero).rest_ratio = 0 ∧
        (buildReport 16 false outSample statsZero).trunc_ratio = 0) :=
  ⟨Or.inl rfl, guarded_ratio_zero 16 false outSample statsZero (Or.inl rfl)⟩

/-- Claim C4: with a positive sequence count and positive sequence-unit
length, `rest_ratio` is `100 * rest_count / (seq_count * M)` rounded to
2 decimal places, and `trunc_ratio` is computed analogously from the
truncation count. -/
theorem ratio_formula (M : Nat) (interarrival : Bool) (outputFile : String)
    (s : StatsTuple) (h1 : 0 < s.seq_count) (h2 : 0 < M) :
    (buildReport M interarrival outputFile s).rest_ratio =
        round2 (100 * (s.rest_count : ℚ) / ((s.seq_count : ℚ) * (M : ℚ))) ∧
      (buildReport M interarrival outputFile s).trunc_ratio =
        round2 (100 * (s.truncations : ℚ) / ((s.seq_count : ℚ) * (M : ℚ))) := by
  constructor <;> simp [buildReport, h1, h2]

/-- Witness for C4: the spec scenario (100 sequences, 50 rest tokens, 10
truncations, sequence-unit length 20) yields a rest ratio of 2.5 and a
truncation ratio of 0.5. -/
theorem ratio_formula_witness :
    (buildReport 20 false outSample statsScenario).rest_ratio = 5 / 2 ∧
      (buildReport 20 false outSample statsScenario).trunc_ratio = 1 / 2 := by
  have h := ratio_formula 20 false outSample statsScenario (by decide) (by decide)
  refine ⟨h.1.trans ?_, h.2.trans ?_⟩ <;>
    norm_num [statsScenario, round2, round_eq]

/-- Claim C5: discovery returns exactly the lexicographically sorted list
of the matching files of the directory (sorted under the string order,
a permutation of the matched set), and it is reproducible: any reordering
of the underlying directory enumeration yields the same list. -/
theorem discover_sorted_exact (datadir : String) (listing : List String) :
    List.Sorted (fun a b : String => a ≤ b) (discover datadir listing) ∧
      (discover datadir listing).Perm
        ((listing.filter matchesShardPattern).map (joinPath datadir)) ∧
      ∀ listing', listing.Perm listing' →
        discover datadir listing = discover datadir listing' := by
  refine ⟨discover_sorted datadir listing, discover_perm datadir listing, ?_⟩
  intro listing' hp
  have hps : (discover datadir listing).Perm (discover datadir listing') := by
    refine ((discover_perm datadir listing).trans ?_).trans (discover_perm datadir listing').symm
    exact (hp.filter matchesShardPattern).map (joinPath datadir)
  exact List.eq_of_perm_of_sorted hps (discover_sorted datadir listing)
    (discover_sorted datadir listing')

/-- Witness for C5: discovery on a sample listing and on a reordering of
it coincide. -/
theorem discover_sorted_exact_witness :
    discover dirSample sampleListing =
      discover dirSample ["a.mid.compound.txt", "b.mid.compound.txt", "c.mid.compound.txt"] :=
  (discover_sorted_exact dirSample sampleListing).2.2
    ["a.mid.compound.txt", "b.mid.compound.txt", "c.mid.compound.txt"]
    (List.Perm.swap "a.mid.compound.txt" "b.mid.compound.txt" ["c.mid.compound.txt"])

/-- Claim C6: when discovery yields zero matching files, the invocation
reports the no-input-files diagnostic and returns cleanly: zero jobs are
dispatched and zero result tuples are collected (the external tokenizer,
the only writer, is invoked once per dispatched job, so zero jobs means
zero file writes). -/
theorem noInputFiles_clean_return (M : Nat) (args : Args) (listing : List String)
    (tokenize tokenize_ia : JobDescriptor → StatsTuple)
    (h : discover args.datadir listing = []) :
    run M args listing tokenize tokenize_ia =
      { jobs := [], results := [], outcome := Outcome.noInputFiles args.datadir } :=
  run_eq_of_discover_nil M args listing tokenize tokenize_ia h

/-- Witness for C6 at a directory listing with no matching file. -/
theorem noInputFiles_clean_return_witness :
    run 16 ⟨dirSample, 1, false⟩ emptyListing constTok constTok =
      { jobs := [], results := [], outcome := Outcome.noInputFiles dirSample } :=
  noInputFiles_clean_return 16 ⟨dirSample, 1, false⟩ emptyListing constTok constTok (by decide)

/-- Claim C7: when the pool yields an empty result list, the engine
reports the empty-results diagnostic and returns cleanly; no report is
produced. -/
theorem emptyResults_no_report (M : Nat) (interarrival : Bool) (outputFile : String) :
    dispatchAggregate M interarrival outputFile [] = Outcome.emptyResults ∧
      ∀ r : Report, dispatchAggregate M interarrival outputFile [] ≠ Outcome.reported r := by
  refine ⟨rfl, ?_⟩
  intro r h
  exact Outcome.noConfusion h

/-- Witness for C7 at concrete parameters. -/
theorem emptyResults_no_report_witness :
    dispatchAggregate 16 false outSample [] = Outcome.emptyResults :=
  (emptyResults_no_report 16 false outSample).1

/-- Claim C8: whenever a report is produced, its truncation kind label is
the interarrival label exactly when the interarrival flag was set,
independent of the truncation count and of which ratio branch was
taken. -/
theorem trunc_label_iff_flag (M : Nat) (args : Args) (listing : List String)
    (tokenize tokenize_ia : JobDescriptor → StatsTuple) (r : Report)
    (h : (run M args listing tokenize tokenize_ia).outcome = Outcome.reported r) :
    (r.trunc_type = interarrivalLabel ↔ args.interarrival = true) := by
  by_cases hd : discover args.datadir listing = []
  · rw [run_eq_of_discover_nil M args listing tokenize tokenize_ia hd] at h
    exact absurd h (Outcome.noConfusion)
  · rw [run_eq_of_discover_ne_nil M args listing tokenize tokenize_ia hd] at h
    have hr := (Outcome.reported.injEq _ _).mp h.symm
    cases hi : args.interarrival with
    | true =>
      subst hr
      simp [buildReport, hi]
    | false =>
      subst hr
      simp [buildReport, hi]
      intro hcontra
      exact absurd hcontra (by decide)

/-- Witness for C8: a concrete arrival-time run produces a report whose
label is not the interarrival label. -/
theorem trunc_label_iff_flag_witness :
    ((buildReport 16 false (joinPath dirSample outputFileName) constStats).trunc_type =
        interarrivalLabel ↔ (false : Bool) = true) :=
  trunc_label_iff_flag 16 ⟨dirSample, 1, false⟩ sampleListing constTok constTok
    (buildReport 16 false (joinPath dirSample outputFileName) constStats) (by rfl)

/-- Claim C9: the orchestration is a deterministic function of the
directory contents and the arguments: two runs with the same inputs and
extensionally equal tokenization routines produce identical traces, and
in particular identical reports. -/
theorem run_deterministic (M : Nat) (args : Args) (listing : List String)
    (t1 ti1 t2 ti2 : JobDescriptor → StatsTuple)
    (h1 : ∀ j, t1 j = t2 j) (h2 : ∀ j, ti1 j = ti2 j) :
    run M args listing t1 ti1 = run M args listing t2 ti2 := by
  have e1 : t1 = t2 := funext h1
  have e2 : ti1 = ti2 := funext h2
  rw [e1, e2]

/-- Witness for C9 at concrete inputs. -/
theorem run_deterministic_witness :
    run 16 ⟨dirSample, 1, false⟩ sampleListing constTok constTok =
      run 16 ⟨dirSample, 1, false⟩ sampleListing constTok constTok :=
  run_deterministic 16 ⟨dirSample, 1, false⟩ sampleListing constTok constTok constTok constTok
    (fun _ => rfl) (fun _ => rfl)

/-- Claim C10: the number printed on the `Discarded ... event sequences`
line is `too_short + too_long` only; it does not change with the
too-many-instruments count (listed as a sub-item beneath it) nor with the
separately printed discarded-sequence count. -/
theorem discarded_line_total (M : Nat) (interarrival : Bool) (outputFile : String)
    (s : StatsTuple) :
    (buildReport M interarrival outputFile s).discarded_total = s.too_short + s.too_long ∧
      ∀ a b : Nat,
        (buildReport M interarrival outputFile
            { s with too_manyinstr := a, discarded_seqs := b }).discarded_total =
          (buildReport M interarrival outputFile s).discarded_total := by
  constructor
  · rfl
  · intro a b
    rfl

end TokenizePop909
